import Mathlib

/-!
Shallow embedding of `3party/opening_hours/opening_hours.cpp` (namespace `osmoh`):
the `opening_hours` value model and its canonical-text serializer.

Conventions of the embedding:
* C++ member fields keep their `m_` names; getters/setters/predicates keep
  their C++ names.
* `std::ostream` insertion operators become pure `print…` functions returning
  the `String` they would append; the one place where stream *state* matters
  (`StreamFlagsKeeper` / `PrintPaddedNumber`) is additionally modelled on an
  explicit stream-state record `OStream`.
* `std::chrono` durations are stored as `Int` minutes; `duration_cast` to
  hours truncates toward zero, hence `Int.tdiv`.
* Machine integers: the only place where fixed-width overflow matters is
  `WeekdayRange::GetDaysCount` (`uint32_t` subtraction), modelled with an
  explicit `emod (2 ^ 32)`.
-/

namespace osmoh

/-- Left-pads a decimal string to the given width with the given fill
character, as a formatted stream insertion under `setw`/`setfill` does
(no truncation when the string is already long enough). -/
def padWith (fill : Char) (width : Nat) (s : String) : String :=
  String.mk (List.replicate (width - s.length) fill) ++ s

/-- Textual effect of `PrintPaddedNumber(ost, number, padding)`: the decimal
digits of `number`, zero-filled on the left to width `padding`. -/
def printPaddedNumber (number : Nat) (padding : Nat) : String :=
  padWith '0' padding (toString number)

/-- `PrintOffset(ost, offset, space)`: nothing for a zero offset; otherwise a
leading space when `space` is set, a `+` sign for a positive offset, the
integer, a literal `" day"`, and a trailing `s` when `|offset| > 1`. -/
def PrintOffset (offset : Int) (space : Bool) : String :=
  if offset = 0 then ""
  else
    (if space then " " else "")
    ++ (if 0 < offset then "+" else "")
    ++ toString offset
    ++ " day"
    ++ (if 1 < offset.natAbs then "s" else "")

/-- Tail of the `PrintVector` loop: `sep` is the separator recorded from the
previous element; each element is printed after the pending separator, and the
separator for the next element is extracted from the element just printed. -/
def printVectorTail {α : Type} (pr : α → String) (sepF : α → String) :
    String → List α → String
  | _, [] => ""
  | sep, x :: xs => sep ++ pr x ++ printVectorTail pr sepF (sepF x) xs

/-- `PrintVector(ost, v, sepFunc)`: joins the printed elements, the separator
between an element and its successor being `sepFunc` of the former. -/
def PrintVector {α : Type} (pr : α → String) (sepF : α → String) :
    List α → String
  | [] => ""
  | x :: xs => pr x ++ printVectorTail pr sepF (sepF x) xs

/-- The constant-separator overload of `PrintVector` (default `", "`). -/
def printVectorSep {α : Type} (pr : α → String) (sep : String)
    (v : List α) : String :=
  PrintVector pr (fun _ => sep) v

/-! ## Stream-state model for `StreamFlagsKeeper` / `PrintPaddedNumber`

`std::ostream` formatting state, reduced to what this unit touches: the
`fmtflags` word (saved and restored by `StreamFlagsKeeper`, never otherwise
modified here), the fill character (`std::setfill`; persistent, *not* part of
`fmtflags`), and the field width (`std::setw`; reset to 0 by every formatted
insertion). -/

structure OStream where
  content : String
  flags : Nat
  fill : Char
  width : Nat
  deriving DecidableEq

/-- `ost << std::setw(n)`. -/
def OStream.setw (os : OStream) (n : Nat) : OStream := { os with width := n }

/-- `ost << std::setfill(c)`. -/
def OStream.setfill (os : OStream) (c : Char) : OStream := { os with fill := c }

/-- `ost << n` for an unsigned number: pads to the current width with the
current fill, then resets the width (the fill persists). -/
def OStream.putNumber (os : OStream) (n : Nat) : OStream :=
  { os with content := os.content ++ padWith os.fill os.width (toString n),
            width := 0 }

/-- `PrintPaddedNumber(ost, number, padding)` on the stream-state model:
a `StreamFlagsKeeper` saves `flags()` on entry and restores it on exit;
in between the number is inserted under `setw(padding)` and `setfill('0')`. -/
def PrintPaddedNumber (os : OStream) (number : Nat) (padding : Nat) : OStream :=
  let saved := os.flags
  let os1 := ((os.setw padding).setfill '0').putNumber number
  { os1 with flags := saved }

/-! ## Time -/

inductive Event : Type
  | NotEvent
  | Sunrise
  | Sunset
  | Dawn
  | Dusk
  deriving DecidableEq

/-- Modelled from the spec: the declaration of `class Time` lives in
`opening_hours.hpp`, which is not under `src/`. The spec gives its fields as a
signed duration-since-midnight, "kind" flags `{has-hours, has-minutes}` (the
C++ `m_state` bitmask `HaveHours | HaveMinutes`, with `IsNotTime` = no bit
set), and an event tag. The duration is stored in minutes (`TMinutes`). -/
structure Time where
  haveHours : Bool
  haveMinutes : Bool
  duration : Int
  event : Event
  deriving DecidableEq

/-- Default-constructed `Time`: no flags, zero duration, no event. -/
def Time.default : Time := ⟨false, false, 0, Event.NotEvent⟩

def Time.GetEvent (t : Time) : Event := t.event

def Time.IsEvent (t : Time) : Bool := decide (t.GetEvent ≠ Event.NotEvent)

/-- The C++ test `m_state != IsNotTime`, i.e. at least one presence flag set. -/
def Time.stateNotIsNotTime (t : Time) : Bool := t.haveHours || t.haveMinutes

def Time.IsEventOffset (t : Time) : Bool := t.IsEvent && t.stateNotIsNotTime

def Time.IsHoursMinutes (t : Time) : Bool :=
  !t.IsEvent && (t.haveHours && t.haveMinutes)

def Time.IsMinutes (t : Time) : Bool :=
  !t.IsEvent && (t.haveMinutes && !t.haveHours)

def Time.IsTime (t : Time) : Bool := t.IsHoursMinutes || t.IsEvent

def Time.HasValue (t : Time) : Bool := t.IsEvent || t.IsTime || t.IsMinutes

/-- `Time::SetHours`: sets both presence flags; `m_duration = hours`
(stored in minutes). -/
def Time.SetHours (t : Time) (hours : Int) : Time :=
  { t with haveHours := true, haveMinutes := true, duration := 60 * hours }

/-- `Time::SetMinutes`: sets the minute flag, stores the duration, and
additionally sets the hour flag when the duration is `> 1h` or `< -1h`. -/
def Time.SetMinutes (t : Time) (minutes : Int) : Time :=
  { t with haveMinutes := true, duration := minutes,
           haveHours := t.haveHours
             || (decide (60 < minutes) || decide (minutes < -60)) }

def Time.SetEvent (t : Time) (e : Event) : Time := { t with event := e }

/-- `Time::GetEventTime` returns a default-constructed `Time` (the explicit
zero-duration placeholder; real astronomical resolution is a TODO). -/
def Time.GetEventTime : Time := Time.default

/-- `Time::operator+`: copy `*this`, then `SetMinutes` on the summed durations. -/
def Time.add (a b : Time) : Time := a.SetMinutes (a.duration + b.duration)

/-- `Time::operator-` (binary): copy `*this`, then `SetMinutes` on the
difference of the durations. -/
def Time.sub (a b : Time) : Time := a.SetMinutes (a.duration - b.duration)

/-- `Time::operator-()` (unary): negates `m_duration` in place; the state
flags and the event tag are left untouched. -/
def Time.neg (t : Time) : Time := { t with duration := -t.duration }

/-- `std::chrono::duration_cast<THours>(m_duration)`: truncation toward zero. -/
def Time.castHours (t : Time) : Int := t.duration.tdiv 60

/-- `duration_cast<TMinutes>(m_duration) - GetHours()` in the plain branch:
the minute component left after removing the truncated hours. -/
def Time.castMinutes (t : Time) : Int := t.duration - 60 * t.castHours

/-- `Time::GetHours`. The branch order of the source is kept: `IsEvent()` is
tested first, then `IsEventOffset()`. The recursive calls
`GetEventTime().GetHours()` and `(GetEventTime() - *this).GetHours()` are
inlined by one step: both arguments carry `Event::NotEvent`, so on them
`GetHours` takes the plain `duration_cast` branch. -/
def Time.GetHours (t : Time) : Int :=
  if t.IsEvent then Time.GetEventTime.castHours
  else if t.IsEventOffset then (Time.sub Time.GetEventTime t).castHours
  else t.castHours

/-- `Time::GetMinutes`, with the same one-step inlining as `Time.GetHours`. -/
def Time.GetMinutes (t : Time) : Int :=
  if t.IsEvent then Time.GetEventTime.castMinutes
  else if t.IsEventOffset then (Time.sub Time.GetEventTime t).castMinutes
  else t.castMinutes

/-- `operator<<(ost, Time::Event)`. -/
def printEvent : Event → String
  | Event.NotEvent => "NotEvent"
  | Event.Sunrise => "sunrise"
  | Event.Sunset => "sunset"
  | Event.Dawn => "dawn"
  | Event.Dusk => "dusk"

/-- `operator<<(ost, Time)`. -/
def printTime (t : Time) : String :=
  if !t.HasValue then "hh:mm"
  else
    let minutes := t.GetMinutes
    let hours := t.GetHours
    if t.IsEvent then
      if t.IsEventOffset then
        "(" ++ printEvent t.GetEvent
        ++ (if hours < 0 then "-" else "+")
        ++ printPaddedNumber hours.natAbs 2 ++ ":"
        ++ printPaddedNumber minutes.natAbs 2 ++ ")"
      else printEvent t.GetEvent
    else if t.IsMinutes then printPaddedNumber minutes.natAbs 2
    else
      printPaddedNumber hours.natAbs 2 ++ ":"
      ++ printPaddedNumber minutes.natAbs 2

/-! ## Timespan -/

structure Timespan where
  m_start : Time
  m_end : Time
  m_period : Time
  m_plus : Bool
  deriving DecidableEq

/-- Default-constructed `Timespan`. -/
def Timespan.default : Timespan := ⟨Time.default, Time.default, Time.default, false⟩

def Timespan.GetStart (s : Timespan) : Time := s.m_start

def Timespan.GetEnd (s : Timespan) : Time := s.m_end

def Timespan.GetPeriod (s : Timespan) : Time := s.m_period

def Timespan.HasStart (s : Timespan) : Bool := s.GetStart.HasValue

def Timespan.HasEnd (s : Timespan) : Bool := s.GetEnd.HasValue

def Timespan.HasPlus (s : Timespan) : Bool := s.m_plus

def Timespan.HasPeriod (s : Timespan) : Bool := s.m_period.HasValue

def Timespan.IsEmpty (s : Timespan) : Bool := !s.HasStart && !s.HasEnd

def Timespan.IsOpen (s : Timespan) : Bool := s.HasStart && !s.HasEnd

/-- `operator<<(ost, Timespan)`. -/
def printTimespan (s : Timespan) : String :=
  printTime s.GetStart
  ++ (if !s.IsOpen then
        "-" ++ printTime s.GetEnd
        ++ (if s.HasPeriod then "/" ++ printTime s.GetPeriod else "")
      else "")
  ++ (if s.HasPlus then "+" else "")

/-- `operator<<(ost, TTimespans)`. -/
def printTimespans (v : List Timespan) : String :=
  printVectorSep printTimespan ", " v

/-! ## Weekdays -/

/-- Modelled from the spec: the `Weekday` enum declaration lives in
`opening_hours.hpp`, which is not under `src/`; the spec lists the cases
`{Sun..Sat, None}` ordered `Sun < ... < Sat`. -/
inductive Weekday : Type
  | Sunday
  | Monday
  | Tuesday
  | Wednesday
  | Thursday
  | Friday
  | Saturday
  | None
  deriving DecidableEq

/-- Modelled from the spec: the underlying integer of each `Weekday` case,
numbered in the spec's listing order `{Sun..Sat, None}`; enum comparisons and
the `uint32_t` casts go through this value. -/
def weekdayToNat : Weekday → Nat
  | Weekday.Sunday => 0
  | Weekday.Monday => 1
  | Weekday.Tuesday => 2
  | Weekday.Wednesday => 3
  | Weekday.Thursday => 4
  | Weekday.Friday => 5
  | Weekday.Saturday => 6
  | Weekday.None => 7

/-- `operator<<(ost, Weekday)`. -/
def printWeekday : Weekday → String
  | Weekday.Sunday => "Su"
  | Weekday.Monday => "Mo"
  | Weekday.Tuesday => "Tu"
  | Weekday.Wednesday => "We"
  | Weekday.Thursday => "Th"
  | Weekday.Friday => "Fr"
  | Weekday.Saturday => "Sa"
  | Weekday.None => "not-a-day"

/-- Modelled from the spec: `NthWeekdayOfTheMonthEntry` holds a start and an
end "nth-of-month ordinal or None" (declared in `opening_hours.hpp`, not
under `src/`); per the spec's sentinel convention the ordinal is a number
with `0` meaning `None`, and rendering casts it to `uint32_t`. -/
structure NthWeekdayOfTheMonthEntry where
  m_start : Nat
  m_end : Nat
  deriving DecidableEq

def NthWeekdayOfTheMonthEntry.GetStart (e : NthWeekdayOfTheMonthEntry) : Nat :=
  e.m_start

def NthWeekdayOfTheMonthEntry.GetEnd (e : NthWeekdayOfTheMonthEntry) : Nat :=
  e.m_end

def NthWeekdayOfTheMonthEntry.HasStart (e : NthWeekdayOfTheMonthEntry) : Bool :=
  decide (e.GetStart ≠ 0)

def NthWeekdayOfTheMonthEntry.HasEnd (e : NthWeekdayOfTheMonthEntry) : Bool :=
  decide (e.GetEnd ≠ 0)

def NthWeekdayOfTheMonthEntry.IsEmpty (e : NthWeekdayOfTheMonthEntry) : Bool :=
  !e.HasStart && !e.HasEnd

/-- `operator<<(ost, NthWeekdayOfTheMonthEntry)`. -/
def printNthEntry (e : NthWeekdayOfTheMonthEntry) : String :=
  (if e.HasStart then toString e.GetStart else "")
  ++ (if e.HasEnd then "-" ++ toString e.GetEnd else "")

structure WeekdayRange where
  m_start : Weekday
  m_end : Weekday
  m_offset : Int
  m_nths : List NthWeekdayOfTheMonthEntry
  deriving DecidableEq

/-- Default-constructed `WeekdayRange`. -/
def WeekdayRange.default : WeekdayRange := ⟨Weekday.None, Weekday.None, 0, []⟩

def WeekdayRange.GetStart (r : WeekdayRange) : Weekday := r.m_start

def WeekdayRange.GetEnd (r : WeekdayRange) : Weekday := r.m_end

def WeekdayRange.GetOffset (r : WeekdayRange) : Int := r.m_offset

def WeekdayRange.GetNths (r : WeekdayRange) : List NthWeekdayOfTheMonthEntry :=
  r.m_nths

def WeekdayRange.HasStart (r : WeekdayRange) : Bool :=
  decide (r.GetStart ≠ Weekday.None)

def WeekdayRange.HasEnd (r : WeekdayRange) : Bool :=
  decide (r.GetEnd ≠ Weekday.None)

def WeekdayRange.HasOffset (r : WeekdayRange) : Bool :=
  decide (r.GetOffset ≠ 0)

def WeekdayRange.HasNth (r : WeekdayRange) : Bool := !r.m_nths.isEmpty

def WeekdayRange.IsEmpty (r : WeekdayRange) : Bool :=
  decide (r.GetStart = Weekday.None) && decide (r.GetEnd = Weekday.None)

/-- `WeekdayRange::HasWday`: false for an empty range or for `Weekday::None`;
a range with no end is the single day `start`; otherwise inclusive containment
under the enum ordering. -/
def WeekdayRange.HasWday (r : WeekdayRange) (wday : Weekday) : Bool :=
  if r.IsEmpty || decide (wday = Weekday.None) then false
  else if !r.HasEnd then decide (r.GetStart = wday)
  else
    decide (weekdayToNat r.GetStart ≤ weekdayToNat wday)
    && decide (weekdayToNat wday ≤ weekdayToNat r.GetEnd)

/-- `WeekdayRange::GetDaysCount`: `0` for an empty range, otherwise the
`uint32_t` value `start - end + 1` (wrapping subtraction of the enum values,
`start` first), returned as `size_t`. -/
def WeekdayRange.GetDaysCount (r : WeekdayRange) : Nat :=
  if r.IsEmpty then 0
  else
    ((((weekdayToNat r.m_start : Int) - (weekdayToNat r.m_end : Int) + 1).emod
      (2 ^ 32))).toNat

/-- `operator<<(ost, WeekdayRange)`. -/
def printWeekdayRange (r : WeekdayRange) : String :=
  printWeekday r.GetStart
  ++ (if r.HasEnd then "-" ++ printWeekday r.GetEnd
      else
        (if r.HasNth then
           "[" ++ printVectorSep printNthEntry "," r.GetNths ++ "]"
         else "")
        ++ PrintOffset r.GetOffset true)

/-- `operator<<(ost, TWeekdayRanges)`. -/
def printWeekdayRanges (v : List WeekdayRange) : String :=
  printVectorSep printWeekdayRange ", " v

/-! ## Holiday, Weekdays aggregate -/

structure Holiday where
  m_plural : Bool
  m_offset : Int
  deriving DecidableEq

def Holiday.IsPlural (h : Holiday) : Bool := h.m_plural

def Holiday.GetOffset (h : Holiday) : Int := h.m_offset

/-- `operator<<(ost, Holiday)`. -/
def printHoliday (h : Holiday) : String :=
  if h.IsPlural then "PH"
  else "SH" ++ PrintOffset h.GetOffset true

/-- `operator<<(ost, THolidays)`. -/
def printHolidays (v : List Holiday) : String :=
  printVectorSep printHoliday ", " v

structure Weekdays where
  m_weekdayRanges : List WeekdayRange
  m_holidays : List Holiday
  deriving DecidableEq

def Weekdays.GetWeekdayRanges (w : Weekdays) : List WeekdayRange :=
  w.m_weekdayRanges

def Weekdays.GetHolidays (w : Weekdays) : List Holiday := w.m_holidays

def Weekdays.IsEmpty (w : Weekdays) : Bool :=
  w.GetWeekdayRanges.isEmpty && w.GetHolidays.isEmpty

def Weekdays.HasWeekday (w : Weekdays) : Bool := !w.GetWeekdayRanges.isEmpty

def Weekdays.HasHolidays (w : Weekdays) : Bool := !w.GetHolidays.isEmpty

/-- `operator<<(ost, Weekdays)`: holidays first, a `", "` separator only when
both lists are non-empty, then the weekday ranges. -/
def printWeekdaysAgg (w : Weekdays) : String :=
  printHolidays w.GetHolidays
  ++ (if w.HasWeekday && w.HasHolidays then ", " else "")
  ++ printWeekdayRanges w.GetWeekdayRanges

/-! ## DateOffset, MonthDay, MonthdayRange -/

structure DateOffset where
  m_wday_offset : Weekday
  m_positive : Bool
  m_offset : Int
  deriving DecidableEq

/-- Default-constructed `DateOffset` (positive weekday offset by default). -/
def DateOffset.default : DateOffset := ⟨Weekday.None, true, 0⟩

def DateOffset.GetWDayOffset (o : DateOffset) : Weekday := o.m_wday_offset

def DateOffset.GetOffset (o : DateOffset) : Int := o.m_offset

def DateOffset.IsWDayOffsetPositive (o : DateOffset) : Bool := o.m_positive

def DateOffset.HasWDayOffset (o : DateOffset) : Bool :=
  decide (o.m_wday_offset ≠ Weekday.None)

def DateOffset.HasOffset (o : DateOffset) : Bool := decide (o.m_offset ≠ 0)

def DateOffset.IsEmpty (o : DateOffset) : Bool :=
  !o.HasOffset && !o.HasWDayOffset

/-- `operator<<(ost, DateOffset)`: the signed weekday-offset token when
present, then the numeric day offset (space-prefixed only if a weekday offset
was emitted). -/
def printDateOffset (o : DateOffset) : String :=
  (if o.HasWDayOffset then
     (if o.IsWDayOffsetPositive then "+" else "-")
     ++ printWeekday o.GetWDayOffset
   else "")
  ++ PrintOffset o.GetOffset o.HasWDayOffset

inductive Month : Type
  | None
  | Jan
  | Feb
  | Mar
  | Apr
  | May
  | Jun
  | Jul
  | Aug
  | Sep
  | Oct
  | Nov
  | Dec
  deriving DecidableEq

/-- `operator<<(ost, MonthDay::Month)`. -/
def printMonth : Month → String
  | Month.None => "None"
  | Month.Jan => "Jan"
  | Month.Feb => "Feb"
  | Month.Mar => "Mar"
  | Month.Apr => "Apr"
  | Month.May => "May"
  | Month.Jun => "Jun"
  | Month.Jul => "Jul"
  | Month.Aug => "Aug"
  | Month.Sep => "Sep"
  | Month.Oct => "Oct"
  | Month.Nov => "Nov"
  | Month.Dec => "Dec"

inductive VariableDate : Type
  | None
  | Easter
  deriving DecidableEq

/-- `operator<<(ost, MonthDay::VariableDate)`. -/
def printVariableDate : VariableDate → String
  | VariableDate.None => "none"
  | VariableDate.Easter => "easter"

structure MonthDay where
  m_year : Nat
  m_month : Month
  m_daynum : Nat
  m_variable_date : VariableDate
  m_offset : DateOffset
  deriving DecidableEq

/-- Default-constructed `MonthDay`. -/
def MonthDay.default : MonthDay :=
  ⟨0, Month.None, 0, VariableDate.None, DateOffset.default⟩

def MonthDay.GetYear (md : MonthDay) : Nat := md.m_year

def MonthDay.GetMonth (md : MonthDay) : Month := md.m_month

def MonthDay.GetDayNum (md : MonthDay) : Nat := md.m_daynum

def MonthDay.GetOffset (md : MonthDay) : DateOffset := md.m_offset

def MonthDay.GetVariableDate (md : MonthDay) : VariableDate :=
  md.m_variable_date

def MonthDay.IsVariable (md : MonthDay) : Bool :=
  decide (md.GetVariableDate ≠ VariableDate.None)

def MonthDay.HasYear (md : MonthDay) : Bool := decide (md.GetYear ≠ 0)

def MonthDay.HasMonth (md : MonthDay) : Bool :=
  decide (md.GetMonth ≠ Month.None)

def MonthDay.HasDayNum (md : MonthDay) : Bool := decide (md.GetDayNum ≠ 0)

def MonthDay.HasOffset (md : MonthDay) : Bool := !md.GetOffset.IsEmpty

def MonthDay.IsEmpty (md : MonthDay) : Bool :=
  !md.HasYear && !md.HasMonth && !md.HasDayNum && !md.IsVariable

/-- One step of the `putSpace` discipline: when `cond` holds, append a single
space if anything was emitted before, then `s`, and record that something has
been emitted; otherwise leave the state unchanged. -/
def emit (st : String × Bool) (cond : Bool) (s : String) : String × Bool :=
  if cond then (st.1 ++ (if st.2 then " " else "") ++ s, true) else st

/-- `operator<<(ost, MonthDay)`: space-joins, in order, the parts present
(year, then the variable-date name or month and padded day number), then the
`DateOffset` suffix. -/
def printMonthDay (md : MonthDay) : String :=
  let st := emit ("", false) md.HasYear (toString md.GetYear)
  let st :=
    if md.IsVariable then emit st true (printVariableDate md.GetVariableDate)
    else
      let st := emit st md.HasMonth (printMonth md.GetMonth)
      emit st md.HasDayNum (printPaddedNumber md.GetDayNum 2)
  st.1 ++ (if md.HasOffset then " " ++ printDateOffset md.GetOffset else "")

structure MonthdayRange where
  m_start : MonthDay
  m_end : MonthDay
  m_period : Nat
  m_plus : Bool
  deriving DecidableEq

def MonthdayRange.GetStart (r : MonthdayRange) : MonthDay := r.m_start

def MonthdayRange.GetEnd (r : MonthdayRange) : MonthDay := r.m_end

def MonthdayRange.GetPeriod (r : MonthdayRange) : Nat := r.m_period

def MonthdayRange.HasStart (r : MonthdayRange) : Bool := !r.GetStart.IsEmpty

def MonthdayRange.HasEnd (r : MonthdayRange) : Bool :=
  !r.GetEnd.IsEmpty || r.GetEnd.HasDayNum

def MonthdayRange.HasPeriod (r : MonthdayRange) : Bool :=
  decide (r.m_period ≠ 0)

def MonthdayRange.HasPlus (r : MonthdayRange) : Bool := r.m_plus

def MonthdayRange.IsEmpty (r : MonthdayRange) : Bool :=
  !r.HasStart && !r.HasEnd

/-- `operator<<(ost, MonthdayRange)`. -/
def printMonthdayRange (r : MonthdayRange) : String :=
  (if r.HasStart then printMonthDay r.GetStart else "")
  ++ (if r.HasEnd then
        "-" ++ printMonthDay r.GetEnd
        ++ (if r.HasPeriod then "/" ++ toString r.GetPeriod else "")
      else if r.HasPlus then "+" else "")

/-- `operator<<(ost, TMonthdayRanges)`. -/
def printMonthdayRanges (v : List MonthdayRange) : String :=
  printVectorSep printMonthdayRange ", " v

/-! ## YearRange, WeekRange -/

structure YearRange where
  m_start : Nat
  m_end : Nat
  m_plus : Bool
  m_period : Nat
  deriving DecidableEq

/-- Default-constructed `YearRange`. -/
def YearRange.default : YearRange := ⟨0, 0, false, 0⟩

def YearRange.GetStart (r : YearRange) : Nat := r.m_start

def YearRange.GetEnd (r : YearRange) : Nat := r.m_end

def YearRange.GetPeriod (r : YearRange) : Nat := r.m_period

def YearRange.HasStart (r : YearRange) : Bool := decide (r.GetStart ≠ 0)

def YearRange.HasEnd (r : YearRange) : Bool := decide (r.GetEnd ≠ 0)

def YearRange.HasPlus (r : YearRange) : Bool := r.m_plus

def YearRange.HasPeriod (r : YearRange) : Bool := decide (r.GetPeriod ≠ 0)

def YearRange.IsEmpty (r : YearRange) : Bool := !r.HasStart && !r.HasEnd

def YearRange.IsOpen (r : YearRange) : Bool := r.HasStart && !r.HasEnd

/-- `operator<<(ost, YearRange)`: empty text for an empty range. -/
def printYearRange (r : YearRange) : String :=
  if r.IsEmpty then ""
  else
    toString r.GetStart
    ++ (if r.HasEnd then
          "-" ++ toString r.GetEnd
          ++ (if r.HasPeriod then "/" ++ toString r.GetPeriod else "")
        else if r.HasPlus then "+" else "")

/-- `operator<<(ost, TYearRanges)`. -/
def printYearRanges (v : List YearRange) : String :=
  printVectorSep printYearRange ", " v

structure WeekRange where
  m_start : Nat
  m_end : Nat
  m_period : Nat
  deriving DecidableEq

def WeekRange.GetStart (r : WeekRange) : Nat := r.m_start

def WeekRange.GetEnd (r : WeekRange) : Nat := r.m_end

def WeekRange.GetPeriod (r : WeekRange) : Nat := r.m_period

def WeekRange.HasStart (r : WeekRange) : Bool := decide (r.GetStart ≠ 0)

def WeekRange.HasEnd (r : WeekRange) : Bool := decide (r.GetEnd ≠ 0)

def WeekRange.HasPeriod (r : WeekRange) : Bool := decide (r.GetPeriod ≠ 0)

def WeekRange.IsEmpty (r : WeekRange) : Bool := !r.HasStart && !r.HasEnd

def WeekRange.IsOpen (r : WeekRange) : Bool := r.HasStart && !r.HasEnd

/-- `operator<<(ost, WeekRange)`: empty text for an empty range; start and end
are zero-padded to two digits. -/
def printWeekRange (r : WeekRange) : String :=
  if r.IsEmpty then ""
  else
    printPaddedNumber r.GetStart 2
    ++ (if r.HasEnd then
          "-" ++ printPaddedNumber r.GetEnd 2
          ++ (if r.HasPeriod then "/" ++ toString r.GetPeriod else "")
        else "")

/-- `operator<<(ost, TWeekRanges)`: the literal prefix `"week "` then the
comma-joined ranges. -/
def printWeekRanges (v : List WeekRange) : String :=
  "week " ++ printVectorSep printWeekRange ", " v

/-! ## RuleSequence and the top-level sequence -/

inductive Modifier : Type
  | DefaultOpen
  | Open
  | Closed
  | Unknown
  | Comment
  deriving DecidableEq

/-- `operator<<(ost, RuleSequence::Modifier)`: `DefaultOpen` and `Comment`
print nothing. -/
def printModifier : Modifier → String
  | Modifier.DefaultOpen => ""
  | Modifier.Comment => ""
  | Modifier.Unknown => "unknown"
  | Modifier.Closed => "closed"
  | Modifier.Open => "open"

structure RuleSequence where
  m_years : List YearRange
  m_months : List MonthdayRange
  m_weeks : List WeekRange
  m_weekdays : Weekdays
  m_times : List Timespan
  m_comment : String
  m_modifierComment : String
  m_anySeparator : String
  m_separatorForReadability : Bool
  m_modifier : Modifier
  m_twentyFourHours : Bool
  deriving DecidableEq

/-- Default-constructed `RuleSequence` (separator defaults to `";"` as the
rule-joining default of the format; modifier defaults to `DefaultOpen`). -/
def RuleSequence.default : RuleSequence :=
  ⟨[], [], [], ⟨[], []⟩, [], "", "", ";", false, Modifier.DefaultOpen, false⟩

def RuleSequence.GetYears (s : RuleSequence) : List YearRange := s.m_years

def RuleSequence.GetMonths (s : RuleSequence) : List MonthdayRange := s.m_months

def RuleSequence.GetWeeks (s : RuleSequence) : List WeekRange := s.m_weeks

def RuleSequence.GetWeekdays (s : RuleSequence) : Weekdays := s.m_weekdays

def RuleSequence.GetTimes (s : RuleSequence) : List Timespan := s.m_times

def RuleSequence.GetComment (s : RuleSequence) : String := s.m_comment

def RuleSequence.GetModifierComment (s : RuleSequence) : String :=
  s.m_modifierComment

def RuleSequence.GetAnySeparator (s : RuleSequence) : String := s.m_anySeparator

def RuleSequence.GetModifier (s : RuleSequence) : Modifier := s.m_modifier

def RuleSequence.IsTwentyFourHours (s : RuleSequence) : Bool :=
  s.m_twentyFourHours

def RuleSequence.HasYears (s : RuleSequence) : Bool := !s.GetYears.isEmpty

def RuleSequence.HasMonths (s : RuleSequence) : Bool := !s.GetMonths.isEmpty

def RuleSequence.HasWeeks (s : RuleSequence) : Bool := !s.GetWeeks.isEmpty

def RuleSequence.HasWeekdays (s : RuleSequence) : Bool :=
  !s.GetWeekdays.IsEmpty

def RuleSequence.HasTimes (s : RuleSequence) : Bool := !s.GetTimes.isEmpty

def RuleSequence.HasComment (s : RuleSequence) : Bool :=
  !s.GetComment.isEmpty

def RuleSequence.HasModifierComment (s : RuleSequence) : Bool :=
  !s.GetModifierComment.isEmpty

def RuleSequence.HasSeparatorForReadability (s : RuleSequence) : Bool :=
  s.m_separatorForReadability

def RuleSequence.IsEmpty (s : RuleSequence) : Bool :=
  !s.HasYears && !s.HasMonths && !s.HasWeeks && !s.HasWeekdays && !s.HasTimes

/-- The selector body of `operator<<(ost, RuleSequence)` together with the
final `space` flag: `24/7` short-circuits everything; otherwise either the
free-text comment followed by `:` (which does not touch the `space` flag), or
the year/month/week selectors, the readability `:`, the weekday and time
selectors, each space-joined only when the preceding part was emitted. -/
def printRuleSequenceBody (s : RuleSequence) : String × Bool :=
  if s.IsTwentyFourHours then emit ("", false) true "24/7"
  else if s.HasComment then (s.GetComment ++ ":", false)
  else
    let st := emit ("", false) s.HasYears (printYearRanges s.GetYears)
    let st := emit st s.HasMonths (printMonthdayRanges s.GetMonths)
    let st := emit st s.HasWeeks (printWeekRanges s.GetWeeks)
    let st := if s.HasSeparatorForReadability then (st.1 ++ ":", st.2) else st
    let st := emit st s.HasWeekdays (printWeekdaysAgg s.GetWeekdays)
    emit st s.HasTimes (printTimespans s.GetTimes)

/-- `operator<<(ost, RuleSequence)`: the selector body, then the modifier
keyword (skipped for `DefaultOpen` and `Comment`), then the quoted modifier
comment, under the same `putSpace` discipline. -/
def printRuleSequence (s : RuleSequence) : String :=
  let st := printRuleSequenceBody s
  let st := emit st
    (decide (s.GetModifier ≠ Modifier.DefaultOpen)
      && decide (s.GetModifier ≠ Modifier.Comment))
    (printModifier s.GetModifier)
  let st := emit st s.HasModifierComment
    ("\"" ++ s.GetModifierComment ++ "\"")
  st.1

/-- The separator placed after a rule in `operator<<(ost, TRuleSequences)`:
`" || "` for the fallback separator, otherwise the recorded separator followed
by a single space. -/
def ruleSequenceSeparator (r : RuleSequence) : String :=
  let sep := r.GetAnySeparator
  if sep = "||" then " " ++ sep ++ " " else sep ++ " "

/-- `operator<<(ost, TRuleSequences)`: joins the rules, each element's own
recorded separator standing between it and its successor. -/
def printRuleSequences (v : List RuleSequence) : String :=
  PrintVector printRuleSequence ruleSequenceSeparator v

/-! ## Concrete values used by the claim theorems -/

/-- An event time that additionally carries an offset duration: `sunrise`
with `SetMinutes(90)`. -/
def c1t : Time := (Time.default.SetEvent Event.Sunrise).SetMinutes 90

/-- A `24/7` rule whose recorded separator is `";"`. -/
def c2ruleSemi : RuleSequence :=
  { RuleSequence.default with m_twentyFourHours := true, m_anySeparator := ";" }

/-- A `24/7` rule whose recorded separator is `","`. -/
def c2ruleComma : RuleSequence :=
  { RuleSequence.default with m_twentyFourHours := true, m_anySeparator := "," }

/-- A `24/7` rule with populated selectors, an `Open` modifier and a modifier
comment. -/
def c3rule : RuleSequence :=
  { RuleSequence.default with
    m_twentyFourHours := true,
    m_years := [⟨2020, 2021, false, 0⟩],
    m_weekdays := ⟨[⟨Weekday.Monday, Weekday.Friday, 0, []⟩], []⟩,
    m_modifier := Modifier.Open,
    m_modifierComment := "warm" }

/-- The `Time` 09:00. -/
def c4start : Time := Time.default.SetHours 9

/-- The `Time` 18:00. -/
def c4end : Time := Time.default.SetHours 18

/-- A 50-minute `Time`. -/
def c5a : Time := Time.default.SetMinutes 50

/-- A 20-minute `Time`. -/
def c5b : Time := Time.default.SetMinutes 20

/-- The weekday range `Mo-Fr`. -/
def c7moFr : WeekdayRange := ⟨Weekday.Monday, Weekday.Friday, 0, []⟩

/-- A stream in its default formatting state (fill `' '`, width `0`). -/
def c9os : OStream := ⟨"", 0, ' ', 0⟩

/-- The weekday range `Mo-Tu`: non-empty, with the end the enum successor of
the start. -/
def c10moTu : WeekdayRange := ⟨Weekday.Monday, Weekday.Tuesday, 0, []⟩

/-! ## Claim theorems -/

/-- C1: evaluation of `GetHours`/`GetMinutes` at an event time carrying an
offset duration (sunrise + 90 min). The source tests `IsEvent()` before
`IsEventOffset()`, and `IsEventOffset()` implies `IsEvent()`, so the
subtraction branch is unreachable: the code returns the placeholder event
time's components `(0, 0)`, while the subtraction branch the claim describes
would return the components of `GetEventTime() - *this`, namely `(-1, -30)`. -/
theorem c1_event_offset_takes_event_branch :
    Time.IsEventOffset c1t = true
    ∧ Time.GetHours c1t = 0
    ∧ Time.GetMinutes c1t = 0
    ∧ Time.GetHours (Time.sub Time.GetEventTime c1t) = -1
    ∧ Time.GetMinutes (Time.sub Time.GetEventTime c1t) = -30 := by
  decide

/-- C2 counterexample: a two-rule sequence whose rules carry separators `";"`
then `","` renders as `"<rule1>; <rule2>"`; the final rule's separator is
never emitted, so the claimed pattern `"<rule1>; <rule2>,"` does not match. -/
theorem c2_no_trailing_separator :
    printRuleSequences [c2ruleSemi, c2ruleComma] =
      printRuleSequence c2ruleSemi ++ "; " ++ printRuleSequence c2ruleComma
    ∧ printRuleSequences [c2ruleSemi, c2ruleComma] ≠
      printRuleSequence c2ruleSemi ++ "; " ++ printRuleSequence c2ruleComma
        ++ "," := by
  decide

/-- C2 (amended): rendering joins each rule to its successor using that rule's
own recorded separator, `"||"` being surrounded by one space on each side and
every other separator followed by exactly one space; the last rule's separator
is not emitted. -/
theorem c2_rule_join (r : RuleSequence) (rs : List RuleSequence)
    (h : rs ≠ []) :
    printRuleSequences (r :: rs) =
      printRuleSequence r
      ++ (if r.GetAnySeparator = "||" then " " ++ r.GetAnySeparator ++ " "
          else r.GetAnySeparator ++ " ")
      ++ printRuleSequences rs := by
  cases rs with
  | nil => exact absurd rfl h
  | cons y ys =>
    simp only [printRuleSequences, PrintVector, printVectorTail,
      ruleSequenceSeparator, String.append_assoc]

/-- C2 witness: `c2_rule_join` applied to the two concrete `24/7` rules. -/
theorem c2_rule_join_witness :
    ([c2ruleComma] : List RuleSequence) ≠ []
    ∧ printRuleSequences [c2ruleSemi, c2ruleComma] =
        printRuleSequence c2ruleSemi
        ++ (if c2ruleSemi.GetAnySeparator = "||" then
              " " ++ c2ruleSemi.GetAnySeparator ++ " "
            else c2ruleSemi.GetAnySeparator ++ " ")
        ++ printRuleSequences [c2ruleComma] :=
  ⟨by decide, c2_rule_join c2ruleSemi [c2ruleComma] (by decide)⟩

/-- C3: a `RuleSequence` with the `twentyFourHours` flag set renders as the
literal `24/7` whatever the populated selectors or comment, followed by the
modifier keyword when the modifier is neither `DefaultOpen` nor `Comment`,
and then by the modifier comment in double quotes when present. -/
theorem c3_twenty_four_hours_short_circuits (s : RuleSequence)
    (h : s.IsTwentyFourHours = true) :
    printRuleSequence s =
      "24/7"
      ++ (if decide (s.GetModifier ≠ Modifier.DefaultOpen)
             && decide (s.GetModifier ≠ Modifier.Comment) then
            " " ++ printModifier s.GetModifier
          else "")
      ++ (if s.HasModifierComment then
            " " ++ "\"" ++ s.GetModifierComment ++ "\""
          else "") := by
  cases hm : (decide (s.GetModifier ≠ Modifier.DefaultOpen)
      && decide (s.GetModifier ≠ Modifier.Comment)) <;>
    cases hc : s.HasModifierComment <;>
      simp only [printRuleSequence, printRuleSequenceBody, h, if_true, emit,
        hm, hc, Bool.false_eq_true, if_false, String.append_assoc,
        String.append_empty, String.empty_append]

/-- C3 witness: `c3_twenty_four_hours_short_circuits` applied to a `24/7`
rule with populated year and weekday selectors, modifier `open` and modifier
comment `"warm"`; it renders `24/7 open "warm"`. -/
theorem c3_witness :
    c3rule.IsTwentyFourHours = true
    ∧ printRuleSequence c3rule = "24/7 open \"warm\"" :=
  ⟨rfl, (c3_twenty_four_hours_short_circuits c3rule rfl).trans (by decide)⟩

/-- C4: a `Timespan` renders its start; then, exactly when it is not open
(open: the start has a value and the end does not), `-` and the end and, when
a period is present, `/` and the period; and a trailing `+` exactly when the
plus flag is set, even alongside an explicit end. `09:00`–`18:00` renders
`09:00-18:00`; a lone `09:00` renders `09:00`. -/
theorem c4_timespan_render :
    (∀ s : Timespan,
      printTimespan s =
        printTime s.GetStart
        ++ (if s.GetStart.HasValue && !s.GetEnd.HasValue then ""
            else "-" ++ printTime s.GetEnd
              ++ (if s.GetPeriod.HasValue then "/" ++ printTime s.GetPeriod
                  else ""))
        ++ (if s.m_plus then "+" else ""))
    ∧ printTimespan ⟨c4start, c4end, Time.default, false⟩ = "09:00-18:00"
    ∧ printTimespan ⟨c4start, Time.default, Time.default, false⟩ = "09:00" := by
  refine ⟨fun s => ?_, by decide, by decide⟩
  simp only [printTimespan, Timespan.IsOpen, Timespan.HasStart, Timespan.HasEnd,
    Timespan.HasPeriod, Timespan.HasPlus, Timespan.GetStart, Timespan.GetEnd,
    Timespan.GetPeriod]
  cases h : (s.m_start.HasValue && !s.m_end.HasValue) <;> simp [h]

/-- C5 counterexample: unary minus does not re-derive the presence flags via
`SetMinutes`: on a default `Time` it leaves the minute flag unset, whereas
`SetMinutes` on the negated duration would set it. -/
theorem c5_unary_minus_keeps_flags :
    Time.neg Time.default ≠
      Time.default.SetMinutes (-Time.default.duration)
    ∧ (Time.neg Time.default).haveMinutes = false
    ∧ (Time.default.SetMinutes (-Time.default.duration)).haveMinutes
        = true := by
  decide

/-- C5 (amended): the binary `+` and `-` operate on the underlying duration
and re-derive the presence flags via `SetMinutes`, so their result always has
the minute flag set, and the hour flag set when the magnitude exceeds one
hour; unary `-` only negates the duration in place, leaving the flags and the
event tag untouched. -/
theorem c5_arithmetic (a b : Time) :
    (Time.add a b).haveMinutes = true
    ∧ (60 < a.duration + b.duration ∨ a.duration + b.duration < -60 →
        (Time.add a b).haveHours = true)
    ∧ (Time.sub a b).haveMinutes = true
    ∧ (60 < a.duration - b.duration ∨ a.duration - b.duration < -60 →
        (Time.sub a b).haveHours = true)
    ∧ (Time.neg a).duration = -a.duration
    ∧ (Time.neg a).haveHours = a.haveHours
    ∧ (Time.neg a).haveMinutes = a.haveMinutes
    ∧ (Time.neg a).event = a.event := by
  refine ⟨rfl, ?_, rfl, ?_, rfl, rfl, rfl, rfl⟩
  · rintro (h | h) <;> simp [Time.add, Time.SetMinutes, h]
  · rintro (h | h) <;> simp [Time.sub, Time.SetMinutes, h]

/-- C5 witness: `c5_arithmetic` applied to 50 min + 20 min, whose sum 70 min
exceeds one hour, so both flags are set on the result. -/
theorem c5_arithmetic_witness :
    (60 < c5a.duration + c5b.duration ∨ c5a.duration + c5b.duration < -60)
    ∧ (Time.add c5a c5b).haveMinutes = true
    ∧ (Time.add c5a c5b).haveHours = true :=
  ⟨Or.inl (by decide), (c5_arithmetic c5a c5b).1,
    (c5_arithmetic c5a c5b).2.1 (Or.inl (by decide))⟩

/-- C6: `PrintOffset` is a pure function of its integer and space flag: a zero
offset emits nothing; a nonzero offset emits a leading space only when the
space flag is set, a `+` sign only when positive (the `-` coming from printing
the negative value), the integer, the literal `" day"`, and a trailing `s`
exactly when `|offset| > 1`; in particular `1`/`space=false` gives `"+1 day"`
and `-2` gives `"-2 days"`. -/
theorem c6_print_offset :
    (∀ b : Bool, PrintOffset 0 b = "")
    ∧ (∀ o : Int, o ≠ 0 → PrintOffset o true = " " ++ PrintOffset o false)
    ∧ (∀ o : Int, 0 < o →
        PrintOffset o false =
          "+" ++ toString o ++ " day" ++ (if 1 < o.natAbs then "s" else ""))
    ∧ (∀ o : Int, o < 0 →
        PrintOffset o false =
          toString o ++ " day" ++ (if 1 < o.natAbs then "s" else ""))
    ∧ PrintOffset 1 false = "+1 day"
    ∧ PrintOffset (-2) false = "-2 days" := by
  refine ⟨fun b => by simp [PrintOffset], ?_, ?_, ?_, by decide, by decide⟩
  · intro o h
    simp [PrintOffset, h, String.append_assoc]
  · intro o h
    have h0 : ¬(o = 0) := by omega
    simp [PrintOffset, h0, h, String.append_assoc]
  · intro o h
    have h0 : ¬(o = 0) := by omega
    have h1 : ¬(0 < o) := by omega
    simp [PrintOffset, h0, h1, String.append_assoc]

/-- C6 witness: `c6_print_offset` applied at the positive offset `1`. -/
theorem c6_print_offset_witness :
    (0 : Int) < 1
    ∧ PrintOffset 1 false =
        "+" ++ toString (1 : Int) ++ " day"
        ++ (if 1 < (1 : Int).natAbs then "s" else "") :=
  ⟨by decide, c6_print_offset.2.2.1 1 (by decide)⟩

/-- C7: `HasWday` is false for an empty range or for `Weekday::None`; a range
with a start but no end contains exactly its start; otherwise containment is
inclusive under the enum ordering; in particular `Mo-Fr` contains `Tu` but
neither `Sa` nor `None`. -/
theorem c7_has_wday (r : WeekdayRange) (w : Weekday) :
    (r.IsEmpty = true → r.HasWday w = false)
    ∧ (w = Weekday.None → r.HasWday w = false)
    ∧ (r.IsEmpty = false → w ≠ Weekday.None → r.HasEnd = false →
        (r.HasWday w = true ↔ w = r.GetStart))
    ∧ (r.IsEmpty = false → w ≠ Weekday.None → r.HasEnd = true →
        (r.HasWday w = true ↔
          weekdayToNat r.GetStart ≤ weekdayToNat w
          ∧ weekdayToNat w ≤ weekdayToNat r.GetEnd))
    ∧ c7moFr.HasWday Weekday.Tuesday = true
    ∧ c7moFr.HasWday Weekday.Saturday = false
    ∧ c7moFr.HasWday Weekday.None = false := by
  refine ⟨?_, ?_, ?_, ?_, by decide, by decide, by decide⟩
  · intro h; simp [WeekdayRange.HasWday, h]
  · intro h; simp [WeekdayRange.HasWday, h]
  · intro h hw hend
    simp [WeekdayRange.HasWday, h, hw, hend, eq_comm]
  · intro h hw hend
    simp [WeekdayRange.HasWday, h, hw, hend]

/-- C7 witness: `c7_has_wday` applied to `Mo-Fr` and `Tuesday` through the
inclusive-containment conjunct. -/
theorem c7_has_wday_witness :
    c7moFr.IsEmpty = false
    ∧ c7moFr.HasEnd = true
    ∧ c7moFr.HasWday Weekday.Tuesday = true :=
  ⟨rfl, rfl,
    ((c7_has_wday c7moFr Weekday.Tuesday).2.2.2.1 rfl (by decide) rfl).mpr
      (by decide)⟩

/-- C8: rendering is total over the model (all `print…` functions of this file
are total Lean functions); a fully-empty entity renders as empty or
placeholder text rather than failing: a `Time` with no value renders the
literal `hh:mm`, and an empty `YearRange` renders empty text. -/
theorem c8_render_total (t : Time) (y : YearRange) :
    (t.HasValue = false → printTime t = "hh:mm")
    ∧ (y.IsEmpty = true → printYearRange y = "") := by
  constructor
  · intro h; simp [printTime, h]
  · intro h; simp [printYearRange, h]

/-- C8 witness: `c8_render_total` applied to the default-constructed `Time`
and `YearRange`. -/
theorem c8_render_total_witness :
    Time.default.HasValue = false
    ∧ printTime Time.default = "hh:mm"
    ∧ YearRange.default.IsEmpty = true
    ∧ printYearRange YearRange.default = "" :=
  ⟨by decide, (c8_render_total Time.default YearRange.default).1 (by decide),
    by decide, (c8_render_total Time.default YearRange.default).2 (by decide)⟩

/-- C9: evaluation of `PrintPaddedNumber` on the stream-state model.
`StreamFlagsKeeper` saves and restores only the `fmtflags` word, which does
not include the fill character: after the call the fill is left at `'0'`
(the width resets on insertion), so a subsequent width-2 insertion of `7` on
the same stream prints `07`, where the pre-call state would have printed
` 7`. The zero-fill configuration therefore does leak. -/
theorem c9_fill_leaks :
    (PrintPaddedNumber c9os 5 2).content = "05"
    ∧ (PrintPaddedNumber c9os 5 2).flags = c9os.flags
    ∧ (PrintPaddedNumber c9os 5 2).width = 0
    ∧ (PrintPaddedNumber c9os 5 2).fill = '0'
    ∧ c9os.fill = ' '
    ∧ (((PrintPaddedNumber c9os 5 2).setw 2).putNumber 7).content = "0507"
    ∧ ((c9os.setw 2).putNumber 7).content = " 7" := by
  decide

/-- C10 counterexample: the non-empty range `Mo-Tu` has `GetDaysCount = 0`
(the wrapping value `start - end + 1` vanishes whenever the end is the enum
successor of the start), so `0` does not characterize emptiness. -/
theorem c10_zero_on_nonempty :
    c10moTu.IsEmpty = false ∧ c10moTu.GetDaysCount = 0 := by
  decide

/-- C10 (amended): `GetDaysCount` returns `0` when the range is empty; for a
non-empty range it returns the 32-bit unsigned value `start - end + 1`
(operands in that order, `start` first), computed with unsigned wraparound —
a value that is also `0` for some non-empty ranges. -/
theorem c10_days_count (r : WeekdayRange) :
    (r.IsEmpty = true → r.GetDaysCount = 0)
    ∧ (r.IsEmpty = false →
        r.GetDaysCount =
          (2 ^ 32 + weekdayToNat r.GetStart - weekdayToNat r.GetEnd + 1)
            % 2 ^ 32) := by
  constructor
  · intro h; simp [WeekdayRange.GetDaysCount, h]
  · intro h
    rcases r with ⟨a, b, o, n⟩
    simp only [WeekdayRange.GetDaysCount, WeekdayRange.GetStart,
      WeekdayRange.GetEnd, h, if_false, Bool.false_eq_true]
    cases a <;> cases b <;>
      first
        | exact absurd h (by decide)
        | decide

/-- C10 witness: `c10_days_count` applied to the non-empty range `Mo-Tu`. -/
theorem c10_days_count_witness :
    c10moTu.IsEmpty = false
    ∧ c10moTu.GetDaysCount =
        (2 ^ 32 + weekdayToNat c10moTu.GetStart
          - weekdayToNat c10moTu.GetEnd + 1) % 2 ^ 32 :=
  ⟨rfl, (c10_days_count c10moTu).2 rfl⟩

end osmoh
